import Mathlib

/-!
Verification of the Research Orchestration Engine and Discovery Coordinator
of the Academic Research Assistant repository.

The development is a shallow embedding of the relevant Python code:

* `src/agents/discovery_agent.py` — the `Paper` dataclass,
  `deduplicate_papers`, `filter_existing_papers` and `search_papers`.
* `src/workflows/research_workflow.py` — the `ResearchState` dict, the
  workflow nodes (`check_existing_docs_node`, `discover_papers_node`,
  `extract_content_node`, `update_knowledge_graph_node`,
  `synthesize_results_node`, `quality_check_node`), the branch predicates
  (`should_discover_papers`, `should_continue`) and the `run_research`
  wrapper.

Modelling conventions:

* Python strings are Lean `String`s; `str.lower`, `str.strip` and the
  character classes `isalnum` and `isspace` are modelled with the
  corresponding ASCII-level Lean functions.
* `datetime` values are modelled as `Nat` ordinals, with `0` standing for
  `datetime.min`; relevance scores (Python floats compared against 0.8)
  are modelled as rationals.
* Values that may be absent or `None` in a Python dict are `Option`s, and
  `dict.get(key, default)` is `Option.getD`.
* External collaborators (the vector store, the PDF processor, the
  synthesis agent, the source adapters) are oracle fields of an
  environment record; a call that may raise is an `Except String` value.
* The progress callback is observed as a trace of `(progress, step)`
  invocations accumulated alongside the state.
-/

namespace AcademicResearch

/-- The `Paper` dataclass of `src/agents/discovery_agent.py`.  `url`,
`publication_date`, `venue`, `doi` may be `None`; `citations` is an int that
defaults to 0 but is guarded by a truthiness test in the sort key, so it is
modelled as an `Option Int`.  Dates are modelled as `Nat` ordinals with `0`
standing for `datetime.min`. -/
structure Paper where
  title : String
  authors : List String
  abstract : String
  url : Option String
  publication_date : Option Nat
  venue : Option String
  citations : Option Int
  doi : Option String
  source : String
deriving DecidableEq

/-- Strip of leading and trailing whitespace on the character-list view of
a Python string, modelling `str.strip()`. -/
def trimChars (l : List Char) : List Char :=
  ((l.dropWhile Char.isWhitespace).reverse.dropWhile Char.isWhitespace).reverse

/-- Title normalization used by `deduplicate_papers`: lowercase, strip
surrounding whitespace, then keep only alphanumeric and whitespace
characters.  The result is kept as a character list, whose length is the
Python character count of the normalized title. -/
def normalizedTitle (t : String) : List Char :=
  (trimChars (t.data.map Char.toLower)).filter (fun c => c.isAlphanum || c.isWhitespace)

/-- Sort key of `deduplicate_papers`: the pair
`(p.citations if p.citations else 0, p.publication_date if p.publication_date else datetime.min)`
compared lexicographically. -/
def sortKey (p : Paper) : Lex (Int × Nat) :=
  toLex (p.citations.getD 0, p.publication_date.getD 0)

/-- Ordering relation used for the final sort of `deduplicate_papers`:
`p` comes before `q` when its key is at least the key of `q`
(`list.sort(key=..., reverse=True)` sorts descending by key, stably). -/
def paperBefore (p q : Paper) : Prop :=
  sortKey q ≤ sortKey p

instance : DecidableRel paperBefore :=
  fun p q => (inferInstance : Decidable (sortKey q ≤ sortKey p))

instance : IsTotal Paper paperBefore :=
  ⟨fun p q => le_total (sortKey q) (sortKey p)⟩

instance : IsTrans Paper paperBefore :=
  ⟨fun _ _ _ h h2 => le_trans h2 h⟩

/-- The first phase of `deduplicate_papers`: walk the input keeping a set of
seen normalized titles, retaining a paper exactly when its normalized title
has not been seen and has length strictly greater than 10. -/
def dedupFilter : List Paper → List (List Char) → List Paper
  | [], _ => []
  | p :: ps, seen =>
    let t := normalizedTitle p.title
    if t ∉ seen ∧ t.length > 10 then
      p :: dedupFilter ps (t :: seen)
    else
      dedupFilter ps seen

/-- Model of `deduplicate_papers` from `src/agents/discovery_agent.py`: drop short
and duplicate normalized titles keeping first occurrences, then stable-sort
descending by `(citations, publication_date)`. -/
def deduplicate_papers (papers : List Paper) : List Paper :=
  List.insertionSort paperBefore (dedupFilter papers [])

theorem dedupFilter_mem_spec :
    ∀ (ps : List Paper) (seen : List (List Char)) (p : Paper),
      p ∈ dedupFilter ps seen →
        normalizedTitle p.title ∉ seen ∧ 10 < (normalizedTitle p.title).length ∧
          ∃ i : Fin ps.length, ps.get i = p ∧
            ∀ j : Fin ps.length, j.val < i.val →
              normalizedTitle (ps.get j).title ≠ normalizedTitle p.title
  | [], _, p => by intro h; simp [dedupFilter] at h
  | q :: ps, seen, p => by
    intro h
    simp only [dedupFilter] at h
    by_cases hq : normalizedTitle q.title ∉ seen ∧ (normalizedTitle q.title).length > 10
    · rw [if_pos hq] at h
      rcases List.mem_cons.mp h with rfl | hmem
      · refine ⟨hq.1, hq.2, ⟨0, by simp⟩, rfl, ?_⟩
        intro j hj
        exact absurd hj (Nat.not_lt_zero _)
      · obtain ⟨hseen, hlen, i, hi, hfirst⟩ := dedupFilter_mem_spec ps _ p hmem
        have hne : normalizedTitle p.title ≠ normalizedTitle q.title := by
          intro hEq
          exact hseen (hEq ▸ List.mem_cons_self _ _)
        refine ⟨fun hs => hseen (List.mem_cons_of_mem _ hs), hlen,
          ⟨i.val + 1, by simp [Nat.succ_lt_succ i.isLt]⟩, by simpa using hi, ?_⟩
        intro j hj
        match j with
        | ⟨0, _⟩ => simpa using hne.symm
        | ⟨j + 1, hjlt⟩ =>
          have := hfirst ⟨j, Nat.lt_of_succ_lt_succ hjlt⟩ (Nat.lt_of_succ_lt_succ hj)
          simpa using this
    · rw [if_neg hq] at h
      obtain ⟨hseen, hlen, i, hi, hfirst⟩ := dedupFilter_mem_spec ps seen p h
      have hne : normalizedTitle q.title ≠ normalizedTitle p.title := by
        rcases Decidable.not_and_iff_or_not.mp hq with hin | hshort
        · intro hEq
          exact hseen (hEq ▸ Decidable.not_not.mp hin)
        · intro hEq
          rw [hEq] at hshort
          exact hshort hlen
      refine ⟨hseen, hlen,
        ⟨i.val + 1, by simp [Nat.succ_lt_succ i.isLt]⟩, by simpa using hi, ?_⟩
      intro j hj
      match j with
      | ⟨0, _⟩ => simpa using hne
      | ⟨j + 1, hjlt⟩ =>
        have := hfirst ⟨j, Nat.lt_of_succ_lt_succ hjlt⟩ (Nat.lt_of_succ_lt_succ hj)
        simpa using this

theorem dedupFilter_pairwise (ps : List Paper) (seen : List (List Char)) :
    (dedupFilter ps seen).Pairwise
      (fun a b => normalizedTitle a.title ≠ normalizedTitle b.title) := by
  induction ps generalizing seen with
  | nil => simp [dedupFilter]
  | cons q ps ih =>
    simp only [dedupFilter]
    by_cases hq : normalizedTitle q.title ∉ seen ∧ (normalizedTitle q.title).length > 10
    · rw [if_pos hq]
      refine List.pairwise_cons.mpr ⟨?_, ih _⟩
      intro b hb
      have := (dedupFilter_mem_spec ps _ b hb).1
      intro hEq
      exact this (hEq ▸ List.mem_cons_self _ _)
    · rw [if_neg hq]
      exact ih seen

theorem dedupFilter_of_fresh :
    ∀ (l : List Paper) (seen : List (List Char)),
      l.Pairwise (fun a b => normalizedTitle a.title ≠ normalizedTitle b.title) →
      (∀ p ∈ l, 10 < (normalizedTitle p.title).length) →
      (∀ p ∈ l, normalizedTitle p.title ∉ seen) →
      dedupFilter l seen = l
  | [], _, _, _, _ => rfl
  | p :: ps, seen, hpw, hlen, hseen => by
    have hcond : normalizedTitle p.title ∉ seen ∧ (normalizedTitle p.title).length > 10 :=
      ⟨hseen p (List.mem_cons_self _ _), hlen p (List.mem_cons_self _ _)⟩
    simp only [dedupFilter, if_pos hcond]
    have hpw' := List.pairwise_cons.mp hpw
    refine congrArg (p :: ·) (dedupFilter_of_fresh ps _ hpw'.2 ?_ ?_)
    · intro q hq; exact hlen q (List.mem_cons_of_mem _ hq)
    · intro q hq
      intro hmem
      rcases List.mem_cons.mp hmem with hEq | hs
      · exact hpw'.1 q hq hEq.symm
      · exact hseen q (List.mem_cons_of_mem _ hq) hs

/-- C3: `deduplicate_papers` (i) yields pairwise distinct normalized titles,
(ii) never keeps a normalized title of length at most 10, (iii) keeps, for
each surviving normalized title, the first occurrence in input order, and
(iv) is sorted descending by the composite key
`(citations, publication_date)` with missing citations read as 0 and
missing dates as the minimum date. -/
theorem dedupe_contract (P : List Paper) :
    (deduplicate_papers P).Pairwise
      (fun a b => normalizedTitle a.title ≠ normalizedTitle b.title) ∧
    (∀ p ∈ deduplicate_papers P, 10 < (normalizedTitle p.title).length) ∧
    (∀ p ∈ deduplicate_papers P, ∃ i : Fin P.length, P.get i = p ∧
        ∀ j : Fin P.length, j.val < i.val →
          normalizedTitle (P.get j).title ≠ normalizedTitle p.title) ∧
    (deduplicate_papers P).Pairwise (fun x y => sortKey y ≤ sortKey x) := by
  have hmem : ∀ p ∈ deduplicate_papers P, p ∈ dedupFilter P [] := by
    intro p hp
    exact (List.mem_insertionSort paperBefore).mp hp
  refine ⟨?_, ?_, ?_, ?_⟩
  · have hperm := List.perm_insertionSort paperBefore (dedupFilter P [])
    exact (hperm.pairwise_iff (fun {_ _} h => Ne.symm h)).mpr (dedupFilter_pairwise P [])
  · intro p hp
    exact (dedupFilter_mem_spec P [] p (hmem p hp)).2.1
  · intro p hp
    exact (dedupFilter_mem_spec P [] p (hmem p hp)).2.2
  · exact List.sorted_insertionSort paperBefore (dedupFilter P [])

/-- A concrete paper used to witness `dedupe_contract`. -/
def witnessPaper : Paper :=
  { title := "A Sufficiently Long Paper Title", authors := [], abstract := "",
    url := none, publication_date := none, venue := none, citations := none,
    doi := none, source := "arxiv" }

/-- Witness for `dedupe_contract`: the concrete survivor of a singleton
input has a normalized title longer than 10 characters. -/
theorem dedupe_contract_witness :
    10 < (normalizedTitle witnessPaper.title).length :=
  (dedupe_contract [witnessPaper]).2.1 witnessPaper (by
    have h : deduplicate_papers [witnessPaper] = [witnessPaper] := by rfl
    rw [h]
    exact List.mem_singleton.mpr rfl)

/-- C9: deduplication is idempotent. -/
theorem dedupe_idempotent (P : List Paper) :
    deduplicate_papers (deduplicate_papers P) = deduplicate_papers P := by
  have h := dedupe_contract P
  have hfix : dedupFilter (deduplicate_papers P) [] = deduplicate_papers P := by
    refine dedupFilter_of_fresh _ _ h.1 h.2.1 ?_
    intro p _
    simp
  have hsorted : List.Sorted paperBefore (deduplicate_papers P) :=
    List.sorted_insertionSort paperBefore (dedupFilter P [])
  calc deduplicate_papers (deduplicate_papers P)
      = List.insertionSort paperBefore (dedupFilter (deduplicate_papers P) []) := rfl
    _ = List.insertionSort paperBefore (deduplicate_papers P) := by rw [hfix]
    _ = deduplicate_papers P := List.Sorted.insertionSort_eq hsorted

/-- The `SynthesisResult` record produced by the external synthesis agent
(`src/agents/synthesis_agent.py`).  Key findings, research gaps, citation
network entries and timeline insights are opaque to the engine beyond their
counts, so they are modelled as strings. -/
structure SynthesisResult where
  summary : String := ""
  key_findings : List String := []
  research_gaps : List String := []
  methodology_trends : List String := []
  future_directions : List String := []
  citation_network : List (String × String) := []
  timeline_insights : List (String × String) := []
deriving DecidableEq

/-- The `state["metadata"]` dict of the workflow.  Each field is an `Option`
so that the presence of a key is tracked; `dict.get(key, default)` on it is
`Option.getD`. -/
structure Metadata where
  retry_count : Option Nat := none
  quality_score : Option Nat := none
  quality_issues : Option (List String) := none
  used_existing_docs : Option Bool := none
  papers_found : Option Nat := none
  synthesis_completed : Option Bool := none
  documents_added : Option Nat := none
deriving DecidableEq

/-- Paper-shaped dicts flowing through the workflow state (`state["papers"]`
and `state["web_extracted_contents"]`): the serialized `Paper` dataclass,
the paper records rebuilt from stored documents in
`check_existing_docs_node`, and the content dicts built in
`extract_content_node` all use this shape; keys a producer does not write
stay `none` or at their default. -/
structure PaperDict where
  title : String := ""
  url : Option String := none
  publication_date : Option String := none
  venue : Option String := none
  authors : List String := []
  citations : Option Int := none
  doi : Option String := none
  sections : List String := []
  references : List String := []
  abstract : String := ""
  text : String := ""
  source : Option String := none
  extraction_method : String := "text"
deriving DecidableEq

/-- The `ResearchState` TypedDict of `src/workflows/research_workflow.py`.
The progress callback is not stored as a function: `has_callback` records
whether one was supplied, and its invocations are returned as traces. -/
structure ResearchState where
  query : String
  papers : List PaperDict
  web_extracted_contents : List PaperDict
  synthesis_result : Option SynthesisResult
  knowledge_graph_updated : Bool
  current_step : String
  errors : List String
  metadata : Metadata
  skip_discovery : Bool
  progress : Nat
  has_callback : Bool
deriving DecidableEq

/-- A single invocation of the progress callback: progress value and step
label. -/
abbrev ProgressCall := Nat × String

/-- The `progress_steps` weight table of `ResearchWorkflow.__init__`; the
fallback argument models the dict lookup default
`self.progress_steps.get(step, state.get("progress", 0))`. -/
def progressWeight (step : String) (fallback : Nat) : Nat :=
  if step = "checking_existing_docs" then 10
  else if step = "discovering_papers" then 25
  else if step = "extracting_content" then 45
  else if step = "updating_knowledge_graph" then 60
  else if step = "synthesizing_results" then 80
  else if step = "quality_check" then 100
  else fallback

/-- Model of `update_progress`: set `state["progress"]` to the step weight and, when
a callback is present, invoke it with `(progress, step)` (a failure inside
the callback is swallowed by the code, so the invocation is simply
recorded). -/
def update_progress (st : ResearchState) (step : String) :
    ResearchState × List ProgressCall :=
  let p := progressWeight step st.progress
  ({ st with progress := p }, if st.has_callback then [(p, step)] else [])

/-- Model of `should_continue`: the quality-gate decision.  Returns the chosen edge
label together with the state as left by the predicate (the retry counter
is incremented in place on the `"continue"` branch). -/
def should_continue (st : ResearchState) : String × ResearchState :=
  let quality_score := st.metadata.quality_score.getD 0
  let retry_count := st.metadata.retry_count.getD 0
  if quality_score < 50 ∧ retry_count < 2 then
    ("continue",
      { st with metadata := { st.metadata with retry_count := some (retry_count + 1) } })
  else
    ("end", st)

/-- The branch condition of `should_continue`. -/
def gateCond (st : ResearchState) : Prop :=
  st.metadata.quality_score.getD 0 < 50 ∧ st.metadata.retry_count.getD 0 < 2

instance (st : ResearchState) : Decidable (gateCond st) :=
  inferInstanceAs (Decidable (_ ∧ _))

theorem should_continue_of_cond {st : ResearchState} (h : gateCond st) :
    (should_continue st).1 = "continue" ∧
      (should_continue st).2.metadata.retry_count =
        some (st.metadata.retry_count.getD 0 + 1) ∧
      (should_continue st).2.metadata.quality_score = st.metadata.quality_score := by
  have h2 : st.metadata.quality_score.getD 0 < 50 ∧ st.metadata.retry_count.getD 0 < 2 := h
  simp [should_continue, h2]

theorem should_continue_of_not_cond {st : ResearchState} (h : ¬ gateCond st) :
    (should_continue st).1 = "end" ∧ (should_continue st).2 = st := by
  have h2 : ¬ (st.metadata.quality_score.getD 0 < 50 ∧
      st.metadata.retry_count.getD 0 < 2) := h
  simp [should_continue, h2]

/-- C1: the quality gate returns `"continue"` iff `quality_score < 50` and
`retry_count < 2`; on `"continue"` it increments the retry counter by
exactly one, in every other case it returns `"end"` leaving the state
untouched, and after two `"continue"` results a third call returns
`"end"`. -/
theorem should_continue_spec (st : ResearchState) :
    ((should_continue st).1 = "continue" ↔
      st.metadata.quality_score.getD 0 < 50 ∧ st.metadata.retry_count.getD 0 < 2) ∧
    ((should_continue st).1 = "continue" →
      (should_continue st).2.metadata.retry_count =
        some (st.metadata.retry_count.getD 0 + 1)) ∧
    ((should_continue st).1 ≠ "continue" →
      (should_continue st).1 = "end" ∧ (should_continue st).2 = st) ∧
    ((should_continue st).1 = "continue" →
      (should_continue (should_continue st).2).1 = "continue" →
      (should_continue (should_continue (should_continue st).2).2).1 = "end") := by
  have hcontinue_cond : ∀ s : ResearchState, (should_continue s).1 = "continue" → gateCond s := by
    intro s hs
    by_contra hnc
    rw [(should_continue_of_not_cond hnc).1] at hs
    exact absurd hs (by decide)
  refine ⟨?_, ?_, ?_, ?_⟩
  · constructor
    · exact fun hc => hcontinue_cond st hc
    · exact fun h => (should_continue_of_cond h).1
  · intro hc
    exact (should_continue_of_cond (hcontinue_cond st hc)).2.1
  · intro hne
    have hnc : ¬ gateCond st := fun h => hne (should_continue_of_cond h).1
    exact should_continue_of_not_cond hnc
  · intro h1 h2
    have hc1 : gateCond st := hcontinue_cond st h1
    have hc2 : gateCond (should_continue st).2 := hcontinue_cond _ h2
    have hr1 := (should_continue_of_cond hc1).2.1
    have hr2 := (should_continue_of_cond hc2).2.1
    have hr1v : (should_continue st).2.metadata.retry_count.getD 0 =
        st.metadata.retry_count.getD 0 + 1 := by rw [hr1]; rfl
    have hge : ¬ gateCond (should_continue (should_continue st).2).2 := by
      intro hc3
      have hlt := hc3.2
      rw [hr2] at hlt
      simp only [Option.getD_some] at hlt
      have := hc2.2
      rw [hr1v] at hlt
      omega
    exact (should_continue_of_not_cond hge).1

/-- Witness for `should_continue_spec`: a concrete low-score state with
retry count 0 is driven to `"end"` on the third call. -/
theorem should_continue_spec_witness :
    (should_continue (should_continue (should_continue
        { query := "q", papers := [], web_extracted_contents := [],
          synthesis_result := none, knowledge_graph_updated := false,
          current_step := "initialized", errors := [],
          metadata := { retry_count := some 0 }, skip_discovery := false,
          progress := 0, has_callback := false }).2).2).1 = "end" := by
  refine (should_continue_spec _).2.2.2 (by decide) ?_
  decide

/-- The score computed by `quality_check_node` for a present synthesis
result: four independent 25-point additions. -/
def qualityScoreOf (synthesis : SynthesisResult) : Nat :=
  (if synthesis.summary.length > 50 then 25 else 0) +
  (if synthesis.key_findings.length > 3 then 25 else 0) +
  (if synthesis.methodology_trends.length > 3 then 25 else 0) +
  (if synthesis.future_directions.length > 5 then 25 else 0)

/-- Model of `quality_check_node`: record the step, report progress (weight 100),
then score the synthesis result; a missing synthesis result scores 0 and
records the "No synthesis result" issue.  Both `quality_score` and
`quality_issues` are written to the metadata. -/
def quality_check_node (st0 : ResearchState) : ResearchState × List ProgressCall :=
  let st1 := { st0 with current_step := "quality_check" }
  let r := update_progress st1 "quality_check"
  let st2 := r.1
  let scored : Nat × List String :=
    match st2.synthesis_result with
    | some synthesis => (qualityScoreOf synthesis, [])
    | none => (0, ["No synthesis result"])
  ({ st2 with metadata :=
      { st2.metadata with quality_score := some scored.1,
                          quality_issues := some scored.2 } }, r.2)

/-- C2: the quality check writes a score that is the sum of the four
independent 25-point checks (summary length > 50, more than 3 key findings,
more than 3 methodology trends, more than 5 future directions), hence the
written score is always one of 0, 25, 50, 75, 100; when no synthesis result
is present the score is 0 and a "No synthesis result" issue is recorded in
the state. -/
theorem quality_check_spec (st : ResearchState) :
    (∀ synthesis, st.synthesis_result = some synthesis →
      (quality_check_node st).1.metadata.quality_score =
        some ((if synthesis.summary.length > 50 then 25 else 0) +
              (if synthesis.key_findings.length > 3 then 25 else 0) +
              (if synthesis.methodology_trends.length > 3 then 25 else 0) +
              (if synthesis.future_directions.length > 5 then 25 else 0))) ∧
    ((quality_check_node st).1.metadata.quality_score.getD 0 ∈
      ([0, 25, 50, 75, 100] : List Nat)) ∧
    (st.synthesis_result = none →
      (quality_check_node st).1.metadata.quality_score = some 0 ∧
      "No synthesis result" ∈ (quality_check_node st).1.metadata.quality_issues.getD []) := by
  refine ⟨?_, ?_, ?_⟩
  · intro synthesis hsyn
    simp [quality_check_node, update_progress, hsyn, qualityScoreOf]
  · cases hsyn : st.synthesis_result with
    | none => simp [quality_check_node, update_progress, hsyn]
    | some synthesis =>
      have : (quality_check_node st).1.metadata.quality_score =
          some (qualityScoreOf synthesis) := by
        simp [quality_check_node, update_progress, hsyn]
      rw [this]
      unfold qualityScoreOf
      by_cases h1 : synthesis.summary.length > 50 <;>
        by_cases h2 : synthesis.key_findings.length > 3 <;>
        by_cases h3 : synthesis.methodology_trends.length > 3 <;>
        by_cases h4 : synthesis.future_directions.length > 5 <;>
        simp [h1, h2, h3, h4]
  · intro hsyn
    constructor
    · simp [quality_check_node, update_progress, hsyn]
    · simp [quality_check_node, update_progress, hsyn]

/-- Witness for `quality_check_spec`: on a state with no synthesis result
the written score is 0 and the issue is recorded. -/
theorem quality_check_spec_witness :
    (quality_check_node
        { query := "q", papers := [], web_extracted_contents := [],
          synthesis_result := none, knowledge_graph_updated := false,
          current_step := "initialized", errors := [],
          metadata := { retry_count := some 0 }, skip_discovery := false,
          progress := 0, has_callback := false }).1.metadata.quality_score = some 0 ∧
    "No synthesis result" ∈ (quality_check_node
        { query := "q", papers := [], web_extracted_contents := [],
          synthesis_result := none, knowledge_graph_updated := false,
          current_step := "initialized", errors := [],
          metadata := { retry_count := some 0 }, skip_discovery := false,
          progress := 0, has_callback := false }).1.metadata.quality_issues.getD [] :=
  (quality_check_spec _).2.2 rfl

/-- A document returned by `vector_store.similarity_search_with_scores`:
page content plus the stored metadata keys read by
`check_existing_docs_node`.  Metadata keys are `Option`s because
`doc.metadata.get(key, default)` supplies a default for missing keys. -/
structure DocRec where
  page_content : String := ""
  title : Option String := none
  paper_id : Option String := none
  pub_date : Option String := none
  venue : Option String := none
  authors : List String := []
  citations : Option Int := none
  doi : Option String := none
  sections : Option String := none
  references : Option String := none
  full_text : Option String := none
deriving DecidableEq

/-- The paper dict rebuilt from a stored document inside
`check_existing_docs_node`. -/
def paperOfDoc (doc : DocRec) : PaperDict :=
  { title := doc.title.getD "Existing Document"
    url := some (doc.paper_id.getD "")
    publication_date := some (doc.pub_date.getD "")
    venue := some (doc.venue.getD "")
    authors := doc.authors
    citations := some (doc.citations.getD 0)
    doi := some (doc.doi.getD "")
    sections := (doc.sections.getD "").splitOn ","
    references := (doc.references.getD "").splitOn ","
    abstract := doc.page_content
    text := doc.full_text.getD "" }

/-- Python truthiness of `paper.get("url")` for an optional string field:
false for a missing key, a `None` value and the empty string. -/
def urlTruthy : Option String → Bool
  | none => false
  | some s => s ≠ ""

/-- The distinct-id count of `check_existing_docs_node`:
`len(set(paper.get("url", "") for paper in existing_papers if paper.get("url")))`. -/
def uniquePapersCount (papers : List PaperDict) : Nat :=
  (((papers.filter (fun p => urlTruthy p.url)).map (fun p => p.url.getD "")).dedup).length

/-- The retained matches of `check_existing_docs_node`: documents whose
relevance score is strictly above 0.8, in order. -/
def relevantDocs (docs_with_scores : List (DocRec × ℚ)) : List DocRec :=
  (docs_with_scores.filter (fun ds => ds.2 > (4 / 5 : ℚ))).map Prod.fst

/-- Model of `check_existing_docs_node`: report progress, query the store (the
`store` argument is the outcome of `similarity_search_with_scores`; an
`Except.error` is an exception raised during the check), keep matches with
score above 0.8, rebuild paper dicts, count distinct non-empty ids and set
`skip_discovery` accordingly; on failure append the error and default to
`skip_discovery = false`. -/
def check_existing_docs_node (maxPapers : Nat)
    (store : Except String (List (DocRec × ℚ)))
    (st0 : ResearchState) : ResearchState × List ProgressCall :=
  let st1 := { st0 with current_step := "checking_existing_docs" }
  let r := update_progress st1 "checking_existing_docs"
  let st2 := r.1
  match store with
  | Except.ok docs_with_scores =>
      let existing_papers := (relevantDocs docs_with_scores).map paperOfDoc
      let unique_papers_count := uniquePapersCount existing_papers
      let skip := unique_papers_count ≥ maxPapers + 10
      if skip then
        ({ st2 with
            skip_discovery := true
            papers := existing_papers
            metadata := { st2.metadata with
                          used_existing_docs := some true
                          papers_found := some unique_papers_count } }, r.2)
      else
        ({ st2 with
            skip_discovery := false
            metadata := { st2.metadata with used_existing_docs := some false } }, r.2)
  | Except.error e =>
      ({ st2 with
          errors := st2.errors ++ ["Error in check_existing_docs_node: " ++ e]
          skip_discovery := false }, r.2)

/-- C4: `skip_discovery` is set to true iff the number of distinct non-empty
ids among matches retained at relevance score above 0.8 is at least
`max_papers_per_search + 10`; on any failure during the check the node
defaults to `skip_discovery = false` and appends the error to the state
error list. -/
theorem check_existing_docs_spec (maxPapers : Nat)
    (store : Except String (List (DocRec × ℚ))) (st : ResearchState) :
    (∀ docs, store = Except.ok docs →
      ((check_existing_docs_node maxPapers store st).1.skip_discovery = true ↔
        uniquePapersCount ((relevantDocs docs).map paperOfDoc) ≥ maxPapers + 10)) ∧
    (∀ e, store = Except.error e →
      (check_existing_docs_node maxPapers store st).1.skip_discovery = false ∧
      (check_existing_docs_node maxPapers store st).1.errors =
        st.errors ++ ["Error in check_existing_docs_node: " ++ e]) := by
  constructor
  · intro docs hdocs
    subst hdocs
    by_cases hskip : uniquePapersCount ((relevantDocs docs).map paperOfDoc) ≥ maxPapers + 10
    · simp [check_existing_docs_node, update_progress, hskip]
    · simp [check_existing_docs_node, update_progress, hskip]
  · intro e he
    subst he
    simp [check_existing_docs_node, update_progress]

/-- Witness for `check_existing_docs_spec`: with an empty store result and
threshold 10 + 10 the node does not skip discovery, and a failing store
check appends the error and does not skip. -/
theorem check_existing_docs_spec_witness :
    ((check_existing_docs_node 10 (Except.ok [])
        { query := "q", papers := [], web_extracted_contents := [],
          synthesis_result := none, knowledge_graph_updated := false,
          current_step := "initialized", errors := [],
          metadata := { retry_count := some 0 }, skip_discovery := false,
          progress := 0, has_callback := false }).1.skip_discovery = true ↔
      uniquePapersCount ((relevantDocs []).map paperOfDoc) ≥ 10 + 10) ∧
    ((check_existing_docs_node 10 (Except.error "store down")
        { query := "q", papers := [], web_extracted_contents := [],
          synthesis_result := none, knowledge_graph_updated := false,
          current_step := "initialized", errors := [],
          metadata := { retry_count := some 0 }, skip_discovery := false,
          progress := 0, has_callback := false }).1.skip_discovery = false) :=
  ⟨(check_existing_docs_spec 10 (Except.ok []) _).1 [] rfl,
   ((check_existing_docs_spec 10 (Except.error "store down") _).2 "store down" rfl).1⟩

/-- The environment of `search_papers`: the two enabled source adapters
(`search_arxiv` and `search_google_scholar`, both functions of the attempt
number and the requested count; `none` models an adapter call that raised)
and the store-membership oracle behind `filter_existing_papers`
(`is_paper_in_vectorstore`, whose internal failures already yield
`False`). -/
structure SearchEnv where
  arxiv : Nat → Nat → Option (List Paper)
  gscholar : Nat → Nat → Option (List Paper)
  inStore : Paper → Bool

/-- Result handling of `asyncio.gather(..., return_exceptions=True)`: an
adapter exception contributes no papers. -/
def resultPapers : Option (List Paper) → List Paper
  | some ps => ps
  | none => []

/-- Model of `filter_existing_papers`: drop papers already present in the knowledge
store. -/
def filter_existing_papers (env : SearchEnv) (papers : List Paper) : List Paper :=
  papers.filter (fun p => !(env.inStore p))

/-- Observable record of one widening round of `search_papers`: attempt
number, computed search count, backoff sleep, per-adapter budget and the
size of the accumulated list when the round started. -/
structure SearchRound where
  attempt : Nat
  search_count : Nat
  sleep_seconds : Nat
  per_adapter_count : Nat
  acc_before : Nat
deriving DecidableEq

/-- The accumulation loop at the end of each round: append a paper exactly
when no already-accumulated paper has the same URL (the membership test
sees the papers appended earlier in the same round). -/
def accumulate (acc : List Paper) : List Paper → List Paper
  | [] => acc
  | p :: ps =>
    if acc.any (fun q => q.url == p.url) then accumulate acc ps
    else accumulate (acc ++ [p]) ps

/-- One round of `search_papers`: compute the widened search count, fan out
to both adapters with budget `search_count / 2` each, deduplicate, drop
papers already in the store, and accumulate by URL.  The returned
`SearchRound` records the observable round parameters, including the
`2 * attempt` seconds backoff sleep. -/
def searchRoundStep (env : SearchEnv) (max_results attempt : Nat) (acc : List Paper) :
    List Paper × SearchRound :=
  let search_count := min (max_results * attempt * 2) 75
  let per := search_count / 2
  let batch := resultPapers (env.arxiv attempt per) ++ resultPapers (env.gscholar attempt per)
  let filtered := filter_existing_papers env (deduplicate_papers batch)
  (accumulate acc filtered,
   { attempt := attempt, search_count := search_count, sleep_seconds := 2 * attempt,
     per_adapter_count := per, acc_before := acc.length })

/-- The widening loop of `search_papers`:
`while len(all_papers) < max_results and search_attempts < max_attempts`,
with the fuel counting the remaining attempts out of `max_attempts = 5`. -/
def searchLoop (env : SearchEnv) (max_results : Nat) :
    Nat → Nat → List Paper → List SearchRound → List Paper × List SearchRound
  | 0, _, acc, rounds => (acc, rounds)
  | fuel + 1, attempt, acc, rounds =>
    if acc.length < max_results then
      let r := searchRoundStep env max_results attempt acc
      searchLoop env max_results fuel (attempt + 1) r.1 (rounds ++ [r.2])
    else (acc, rounds)

/-- Model of `search_papers` from `src/agents/discovery_agent.py`, also returning
the round trace. -/
def search_papers (env : SearchEnv) (max_results : Nat) :
    List Paper × List SearchRound :=
  searchLoop env max_results 5 1 [] []

theorem accumulate_spec :
    ∀ (l acc : List Paper), acc.Pairwise (fun p q => p.url ≠ q.url) →
      (accumulate acc l).Pairwise (fun p q => p.url ≠ q.url) ∧
        ∀ p ∈ accumulate acc l, p ∈ acc ∨ p ∈ l
  | [], acc, hacc => ⟨hacc, fun p hp => Or.inl hp⟩
  | p :: ps, acc, hacc => by
    simp only [accumulate]
    by_cases hdup : acc.any (fun q => q.url == p.url) = true
    · rw [if_pos hdup]
      obtain ⟨hpw, hmem⟩ := accumulate_spec ps acc hacc
      exact ⟨hpw, fun q hq => (hmem q hq).imp id (List.mem_cons_of_mem _)⟩
    · rw [if_neg hdup]
      have hfresh : ∀ q ∈ acc, q.url ≠ p.url := by
        intro q hq hEq
        exact hdup (List.any_eq_true.mpr ⟨q, hq, by simp [hEq]⟩)
      have hacc2 : (acc ++ [p]).Pairwise (fun a b => a.url ≠ b.url) := by
        rw [List.pairwise_append]
        exact ⟨hacc, List.pairwise_singleton _ _, by
          intro a ha b hb
          rw [List.mem_singleton.mp hb]
          exact hfresh a ha⟩
      obtain ⟨hpw, hmem⟩ := accumulate_spec ps (acc ++ [p]) hacc2
      refine ⟨hpw, fun q hq => ?_⟩
      rcases hmem q hq with hin | hin
      · rcases List.mem_append.mp hin with h | h
        · exact Or.inl h
        · exact Or.inr (List.mem_cons.mpr (Or.inl (List.mem_singleton.mp h)))
      · exact Or.inr (List.mem_cons_of_mem _ hin)

theorem filtered_batch_mem {env : SearchEnv} {batch : List Paper} {p : Paper}
    (hp : p ∈ filter_existing_papers env (deduplicate_papers batch)) :
    10 < (normalizedTitle p.title).length ∧ env.inStore p = false := by
  have hmem := List.mem_filter.mp hp
  refine ⟨(dedupe_contract batch).2.1 p hmem.1, ?_⟩
  have := hmem.2
  simpa using this

theorem searchLoop_papers (env : SearchEnv) (m : Nat) :
    ∀ (fuel attempt : Nat) (acc : List Paper) (rounds : List SearchRound),
      acc.Pairwise (fun p q => p.url ≠ q.url) →
      (∀ p ∈ acc, 10 < (normalizedTitle p.title).length ∧ env.inStore p = false) →
      (searchLoop env m fuel attempt acc rounds).1.Pairwise (fun p q => p.url ≠ q.url) ∧
        ∀ p ∈ (searchLoop env m fuel attempt acc rounds).1,
          10 < (normalizedTitle p.title).length ∧ env.inStore p = false
  | 0, _, acc, rounds, hacc, hprop => ⟨hacc, hprop⟩
  | fuel + 1, attempt, acc, rounds, hacc, hprop => by
    simp only [searchLoop]
    by_cases hlt : acc.length < m
    · rw [if_pos hlt]
      set filtered := filter_existing_papers env
        (deduplicate_papers (resultPapers (env.arxiv attempt (min (m * attempt * 2) 75 / 2)) ++
          resultPapers (env.gscholar attempt (min (m * attempt * 2) 75 / 2)))) with hfdef
      have hstep : (searchRoundStep env m attempt acc).1 = accumulate acc filtered := rfl
      obtain ⟨hpw, hmem⟩ := accumulate_spec filtered acc hacc
      refine searchLoop_papers env m fuel (attempt + 1) _ _ (hstep ▸ hpw) ?_
      intro p hp
      rw [hstep] at hp
      rcases hmem p hp with hin | hin
      · exact hprop p hin
      · exact filtered_batch_mem hin
    · rw [if_neg hlt]
      exact ⟨hacc, hprop⟩

theorem searchLoop_rounds (env : SearchEnv) (m : Nat) :
    ∀ (fuel attempt : Nat) (acc : List Paper) (rounds : List SearchRound),
      (∀ r ∈ rounds, r.search_count = min (m * r.attempt * 2) 75 ∧
        r.sleep_seconds = 2 * r.attempt ∧
        r.per_adapter_count = r.search_count / 2 ∧ r.acc_before < m) →
      ∀ r ∈ (searchLoop env m fuel attempt acc rounds).2,
        r.search_count = min (m * r.attempt * 2) 75 ∧
        r.sleep_seconds = 2 * r.attempt ∧
        r.per_adapter_count = r.search_count / 2 ∧ r.acc_before < m
  | 0, _, acc, rounds, hrounds => hrounds
  | fuel + 1, attempt, acc, rounds, hrounds => by
    simp only [searchLoop]
    by_cases hlt : acc.length < m
    · rw [if_pos hlt]
      refine searchLoop_rounds env m fuel (attempt + 1) _ _ ?_
      intro r hr
      rcases List.mem_append.mp hr with hin | hin
      · exact hrounds r hin
      · rw [List.mem_singleton.mp hin]
        exact ⟨rfl, rfl, rfl, hlt⟩
    · rw [if_neg hlt]
      exact hrounds

theorem searchLoop_attempts (env : SearchEnv) (m : Nat) :
    ∀ (fuel attempt : Nat) (acc : List Paper) (rounds : List SearchRound),
      ∃ k ≤ fuel,
        (searchLoop env m fuel attempt acc rounds).2.map SearchRound.attempt =
          rounds.map SearchRound.attempt ++ List.range' attempt k
  | 0, attempt, acc, rounds => ⟨0, Nat.le_refl 0, by simp [searchLoop]⟩
  | fuel + 1, attempt, acc, rounds => by
    simp only [searchLoop]
    by_cases hlt : acc.length < m
    · rw [if_pos hlt]
      obtain ⟨k, hk, hmap⟩ := searchLoop_attempts env m fuel (attempt + 1)
        (searchRoundStep env m attempt acc).1 (rounds ++ [(searchRoundStep env m attempt acc).2])
      refine ⟨k + 1, Nat.succ_le_succ hk, ?_⟩
      rw [hmap, List.map_append, List.range'_succ]
      simp [searchRoundStep]
    · rw [if_neg hlt]
      exact ⟨0, Nat.zero_le _, by simp⟩

/-- C5: `search_papers` runs at most 5 widening rounds with consecutive
attempt numbers starting at 1, each executed only while the accumulated
list is still short of `max_results`; round `attempt` uses
`search_count = min(max_results * attempt * 2, 75)`, sleeps `2 * attempt`
seconds, gives each of the two enabled adapters a budget of
`search_count / 2`; every returned paper survived deduplication (long
normalized title) and the store filter, the returned URLs are pairwise
distinct, and the search may return fewer than `max_results` papers. -/
theorem search_papers_contract (env : SearchEnv) (m : Nat) :
    (search_papers env m).2.length ≤ 5 ∧
    (search_papers env m).2.map SearchRound.attempt =
      List.range' 1 (search_papers env m).2.length ∧
    (∀ r ∈ (search_papers env m).2,
      r.search_count = min (m * r.attempt * 2) 75 ∧
      r.sleep_seconds = 2 * r.attempt ∧
      r.per_adapter_count = r.search_count / 2 ∧
      r.acc_before < m) ∧
    (search_papers env m).1.Pairwise (fun p q => p.url ≠ q.url) ∧
    (∀ p ∈ (search_papers env m).1,
      10 < (normalizedTitle p.title).length ∧ env.inStore p = false) ∧
    (∃ (env2 : SearchEnv) (m2 : Nat), (search_papers env2 m2).1.length < m2) := by
  obtain ⟨k, hk, hmap⟩ := searchLoop_attempts env m 5 1 [] []
  have hlen : (search_papers env m).2.length = k := by
    have := congrArg List.length hmap
    simpa [search_papers] using this
  obtain ⟨hpw, hmem⟩ := searchLoop_papers env m 5 1 [] [] (List.Pairwise.nil) (by simp)
  refine ⟨hlen ▸ hk, ?_, ?_, hpw, hmem, ?_⟩
  · rw [hlen]
    simpa [search_papers] using hmap
  · exact searchLoop_rounds env m 5 1 [] [] (by simp)
  · exact ⟨{ arxiv := fun _ _ => some [], gscholar := fun _ _ => some [],
             inStore := fun _ => false }, 1, by decide⟩

/-- Witness for `search_papers_contract`: with adapters that return nothing
and `max_results = 1`, the first executed round has attempt 1, search
count `min(1 * 1 * 2, 75) = 2`, sleep 2 and per-adapter budget 1. -/
theorem search_papers_contract_witness :
    ({ attempt := 1, search_count := 2, sleep_seconds := 2, per_adapter_count := 1,
       acc_before := 0 } : SearchRound).sleep_seconds =
      2 * ({ attempt := 1, search_count := 2, sleep_seconds := 2, per_adapter_count := 1,
             acc_before := 0 } : SearchRound).attempt :=
  ((search_papers_contract
      { arxiv := fun _ _ => some [], gscholar := fun _ _ => some [],
        inStore := fun _ => false } 1).2.2.1
    { attempt := 1, search_count := 2, sleep_seconds := 2, per_adapter_count := 1,
      acc_before := 0 } (by decide)).2.1

/-- The result dict returned by `run_research`.  The success dict carries
`errors` and `metadata` keys, the failure dict carries an `error` key
instead; absent keys are `none`. -/
structure RunResult where
  query : String
  status : String
  error : Option String := none
  papers_found : Nat
  content_extracted : Nat
  synthesis : Option SynthesisResult
  quality_score : Nat
  errors : Option (List String) := none
  metadata : Option Metadata := none
  final_progress : Nat
deriving DecidableEq

/-- The success-path result dict of `run_research`. -/
def formatResults (query : String) (fs : ResearchState) : RunResult :=
  { query := query
    status := if fs.errors = [] then "completed" else "completed_with_errors"
    papers_found := fs.metadata.papers_found.getD 0
    content_extracted := fs.web_extracted_contents.length
    synthesis := fs.synthesis_result
    quality_score := fs.metadata.quality_score.getD 0
    errors := some fs.errors
    metadata := some fs.metadata
    final_progress := fs.progress }

/-- The failure-path result dict of `run_research`: status `"failed"` and
all counts zeroed. -/
def failedResult (query e : String) : RunResult :=
  { query := query
    status := "failed"
    error := some e
    papers_found := 0
    content_extracted := 0
    synthesis := none
    quality_score := 0
    final_progress := 0 }

/-- The `except Exception` handler at the top of `run_research`: invoke the
callback with `(100, "failed: <reason>")` — unguarded, so a callback that
raises here propagates to the caller — then return the failed result.
`made` carries callback invocations already performed on this control
path. -/
def runFailPath (query : String) (cb : Option (Nat → String → Except String Unit))
    (e : String) (made : List ProgressCall) :
    Except String (RunResult × List ProgressCall) :=
  match cb with
  | none => Except.ok (failedResult query e, made)
  | some f =>
      match f 100 ("failed: " ++ e) with
      | Except.ok _ => Except.ok (failedResult query e, made ++ [(100, "failed: " ++ e)])
      | Except.error e2 => Except.error e2

/-- The boundary behaviour of `run_research`: `outcome` is the result of
`self.workflow.ainvoke(initial_state)` (an `Except.error` models an
exception escaping the workflow execution), `cb` is the supplied progress
callback, which may itself raise.  The returned trace lists the callback
invocations made by `run_research` itself; `Except.error` means
`run_research` raised to its caller. -/
def run_research (query : String) (outcome : Except String ResearchState)
    (cb : Option (Nat → String → Except String Unit)) :
    Except String (RunResult × List ProgressCall) :=
  match outcome with
  | Except.ok fs =>
      match cb with
      | none => Except.ok (formatResults query fs, [])
      | some f =>
          match f 100 "completed" with
          | Except.ok _ => Except.ok (formatResults query fs, [(100, "completed")])
          | Except.error e => runFailPath query (some f) e [(100, "completed")]
  | Except.error e => runFailPath query cb e []

/-- The initial `ResearchState` built by `run_research`. -/
def initial_state (query : String) (hasCb : Bool) : ResearchState :=
  { query := query, papers := [], web_extracted_contents := [],
    synthesis_result := none, knowledge_graph_updated := false,
    current_step := "initialized", errors := [],
    metadata := { retry_count := some 0 }, skip_discovery := false,
    progress := 0, has_callback := hasCb }

/-- C6 counterexample: a progress callback that raises makes `run_research`
propagate an exception to its caller, so the claim that `run` never
propagates for every behaviour of the callback is false on the code (the
terminal callback invocations in `run_research` are not guarded). -/
theorem run_research_propagates_counterexample :
    run_research "q" (Except.error "boom")
        (some (fun _ _ => Except.error "callback crashed")) =
      Except.error "callback crashed" := rfl

/-- C6 (amended): provided the progress callback itself never raises,
`run_research` never propagates an exception: the caller always receives a
structured result, and when an exception escapes the workflow execution
the result has status `"failed"`, zeroed counts and `final_progress = 0`,
and the callback is invoked exactly once with `(100, "failed: <reason>")`. -/
theorem run_research_boundary (query : String) (outcome : Except String ResearchState)
    (f : Nat → String → Except String Unit)
    (hf : ∀ n s, f n s = Except.ok ()) :
    (∃ r tr, run_research query outcome (some f) = Except.ok (r, tr)) ∧
    (∀ e, outcome = Except.error e →
      run_research query outcome (some f) =
        Except.ok (failedResult query e, [(100, "failed: " ++ e)]) ∧
      (failedResult query e).status = "failed" ∧
      (failedResult query e).papers_found = 0 ∧
      (failedResult query e).content_extracted = 0 ∧
      (failedResult query e).quality_score = 0 ∧
      (failedResult query e).final_progress = 0) := by
  constructor
  · cases outcome with
    | ok fs =>
        refine ⟨formatResults query fs, [(100, "completed")], ?_⟩
        simp [run_research, hf 100 "completed"]
    | error e =>
        refine ⟨failedResult query e, [(100, "failed: " ++ e)], ?_⟩
        simp [run_research, runFailPath, hf 100 ("failed: " ++ e)]
  · intro e he
    subst he
    refine ⟨?_, rfl, rfl, rfl, rfl, rfl⟩
    simp [run_research, runFailPath, hf 100 ("failed: " ++ e)]

/-- Witness for `run_research_boundary`: a concrete failing workflow with a
well-behaved callback yields the failed structured result. -/
theorem run_research_boundary_witness :
    run_research "q" (Except.error "stage exploded")
        (some (fun _ _ => Except.ok ())) =
      Except.ok (failedResult "q" "stage exploded",
        [(100, "failed: " ++ "stage exploded")]) :=
  (((run_research_boundary "q" (Except.error "stage exploded")
      (fun _ _ => Except.ok ()) (fun _ _ => rfl)).2 "stage exploded" rfl)).1

/-- The `ExtractedContent` dataclass produced by
`PDFProcessor.process_pdf_from_url` (text, extraction metadata, sections,
references); opaque to the engine beyond these fields. -/
structure ContentRec where
  text : String := ""
  extraction_method : String := "text"
  sections : List String := []
  references : List String := []
deriving DecidableEq

/-- The environment of the workflow engine: configuration and the external
collaborators as oracles.  `store` is the outcome of the single
`similarity_search_with_scores` call of a run; `process` is
`process_pdf_from_url` (error = raised, `none` = no usable content);
`synthesize` is `SynthesisAgent.synthesize_research` with the
`is_web_extracted` flag; `addDoc` is `vector_store.add_document`. -/
structure WEnv where
  cfg_max_papers : Nat
  store : Except String (List (DocRec × ℚ))
  search : SearchEnv
  process : String → Except String (Option ContentRec)
  synthesize : String → List PaperDict → Bool → Except String SynthesisResult
  addDoc : PaperDict → Except String Unit

/-- The content dict assembled in `extract_content_node` for a successful
extraction: the `asdict(content)` fields plus the paper dict fields copied
with their dict-get defaults. -/
def contentDict (c : ContentRec) (p : PaperDict) : PaperDict :=
  { title := p.title
    url := p.url
    publication_date := p.publication_date
    venue := p.venue
    authors := p.authors
    citations := p.citations
    doi := p.doi
    sections := c.sections
    references := c.references
    abstract := p.abstract
    text := c.text
    extraction_method := c.extraction_method }

/-- The extraction loop of `extract_content_node`: per paper with a truthy
URL, process it; a raised or empty extraction is skipped; a successful one
is appended, counted, and reported as sub-progress
`int(20 + 20 * (i + 1) / total)` when a callback is present; the loop stops
after 100 successful extractions. -/
def extractLoop (env : WEnv) (total : Nat) (hasCb : Bool) :
    List PaperDict → Nat → Nat → List PaperDict → List ProgressCall →
      List PaperDict × List ProgressCall
  | [], _, _, out, calls => (out, calls)
  | p :: ps, i, succ, out, calls =>
    if urlTruthy p.url then
      match env.process (p.url.getD "") with
      | Except.error _ => extractLoop env total hasCb ps (i + 1) succ out calls
      | Except.ok none => extractLoop env total hasCb ps (i + 1) succ out calls
      | Except.ok (some c) =>
          let out2 := out ++ [contentDict c p]
          let calls2 := calls ++
            (if hasCb ∧ total > 0 then
              [(20 + (20 * (i + 1)) / total,
                "extracting_content (" ++ toString (i + 1) ++ "/" ++ toString total ++ ")")]
             else [])
          if succ + 1 ≥ 100 then (out2, calls2)
          else extractLoop env total hasCb ps (i + 1) (succ + 1) out2 calls2
    else extractLoop env total hasCb ps (i + 1) succ out calls

/-- Model of `extract_content_node`: when `metadata.used_existing_docs` is truthy the
node returns early, clearing `web_extracted_contents`; otherwise it records
the step, reports progress and runs the extraction loop over
`web_extracted_contents`. -/
def extract_content_node (env : WEnv) (st0 : ResearchState) :
    ResearchState × List ProgressCall :=
  if st0.metadata.used_existing_docs.getD false then
    ({ st0 with web_extracted_contents := [] }, [])
  else
    let st1 := { st0 with current_step := "extracting_content" }
    let r := update_progress st1 "extracting_content"
    let st2 := r.1
    let l := extractLoop env st2.web_extracted_contents.length st2.has_callback
      st2.web_extracted_contents 0 0 [] []
    ({ st2 with web_extracted_contents := l.1 }, r.2 ++ l.2)

/-- The indexing loop of `update_knowledge_graph_node`: add each extracted
content dict to the vector store, reporting sub-progress
`int(40 + 20 * (i + 1) / total)` after each addition; a raised `addDoc`
escapes to the node boundary (returned as `some e`). -/
def indexLoop (env : WEnv) (total : Nat) (hasCb : Bool) :
    List PaperDict → Nat → List ProgressCall → Option String × List ProgressCall
  | [], _, calls => (none, calls)
  | c :: cs, i, calls =>
    match env.addDoc c with
    | Except.error e => (some e, calls)
    | Except.ok _ =>
        indexLoop env total hasCb cs (i + 1)
          (calls ++
            (if hasCb ∧ total > 0 then
              [(40 + (20 * (i + 1)) / total,
                "updating_knowledge_graph (" ++ toString (i + 1) ++ "/" ++
                  toString total ++ ")")]
             else []))

/-- Model of `update_knowledge_graph_node`: when `metadata.used_existing_docs` is
truthy the node returns early, setting `knowledge_graph_updated := true`;
otherwise it records the step, reports progress, indexes every extracted
content and on success records `documents_added`; an indexing exception is
appended to the errors and leaves `knowledge_graph_updated := false`. -/
def update_knowledge_graph_node (env : WEnv) (st0 : ResearchState) :
    ResearchState × List ProgressCall :=
  if st0.metadata.used_existing_docs.getD false then
    ({ st0 with knowledge_graph_updated := true }, [])
  else
    let st1 := { st0 with current_step := "updating_knowledge_graph" }
    let r := update_progress st1 "updating_knowledge_graph"
    let st2 := r.1
    match indexLoop env st2.web_extracted_contents.length st2.has_callback
        st2.web_extracted_contents 0 [] with
    | (some e, calls2) =>
        ({ st2 with
            errors := st2.errors ++ ["Error in update_knowledge_graph_node: " ++ e]
            knowledge_graph_updated := false }, r.2 ++ calls2)
    | (none, calls2) =>
        ({ st2 with
            knowledge_graph_updated := true
            metadata := { st2.metadata with
                          documents_added := some st2.web_extracted_contents.length } },
          r.2 ++ calls2)

/-- A concrete environment whose oracles all succeed trivially; used for
closed evaluations. -/
def trivialEnv : WEnv :=
  { cfg_max_papers := 10
    store := Except.ok []
    search := { arxiv := fun _ _ => some [], gscholar := fun _ _ => some [],
                inStore := fun _ => false }
    process := fun _ => Except.ok none
    synthesize := fun _ _ _ => Except.ok {}
    addDoc := fun _ => Except.ok () }

/-- A concrete state in the used-existing-docs regime carrying a non-empty
extracted-contents list and a false knowledge-graph flag. -/
def usedExistingState : ResearchState :=
  { query := "q", papers := [],
    web_extracted_contents := [{ title := "t" }],
    synthesis_result := none, knowledge_graph_updated := false,
    current_step := "initialized", errors := [],
    metadata := { retry_count := some 0, used_existing_docs := some true },
    skip_discovery := true, progress := 10, has_callback := false }

/-- C7 counterexample: with `used_existing_docs = true` the Extract stage
does not pass the state through unchanged — it clears
`web_extracted_contents` — and the Index stage sets
`knowledge_graph_updated` to true, so both stages can differ from their
input. -/
theorem skip_stages_not_identity_counterexample :
    (extract_content_node trivialEnv usedExistingState).1.web_extracted_contents ≠
      usedExistingState.web_extracted_contents ∧
    (update_knowledge_graph_node trivialEnv usedExistingState).1.knowledge_graph_updated ≠
      usedExistingState.knowledge_graph_updated := by
  constructor
  · simp [extract_content_node, usedExistingState, trivialEnv]
  · simp [update_knowledge_graph_node, usedExistingState, trivialEnv]

/-- C7 (amended): when `metadata.used_existing_docs` is true, Extract and
Index are early-return passthroughs that emit no progress and change no
field of the state except that Extract sets `web_extracted_contents` to the
empty list and Index sets `knowledge_graph_updated` to true. -/
theorem skip_stages_passthrough (env : WEnv) (st : ResearchState)
    (h : st.metadata.used_existing_docs = some true) :
    extract_content_node env st = ({ st with web_extracted_contents := [] }, []) ∧
    update_knowledge_graph_node env st = ({ st with knowledge_graph_updated := true }, []) := by
  constructor
  · simp [extract_content_node, h]
  · simp [update_knowledge_graph_node, h]

/-- Witness for `skip_stages_passthrough` at the concrete state. -/
theorem skip_stages_passthrough_witness :
    extract_content_node trivialEnv usedExistingState =
      ({ usedExistingState with web_extracted_contents := [] }, []) :=
  (skip_stages_passthrough trivialEnv usedExistingState rfl).1

/-- Model of `synthesize_results_node`: record the step, report progress, then
synthesize from `state["papers"]` when `metadata.get("used_existing_docs", True)`
is truthy — note the `True` default — and from
`state["web_extracted_contents"]` (with `is_web_extracted=True`) otherwise;
a raised synthesis call is appended to the errors. -/
def synthesize_results_node (env : WEnv) (st0 : ResearchState) :
    ResearchState × List ProgressCall :=
  let st1 := { st0 with current_step := "synthesizing_results" }
  let r := update_progress st1 "synthesizing_results"
  let st2 := r.1
  let res :=
    if st2.metadata.used_existing_docs.getD true then
      env.synthesize st2.query st2.papers false
    else
      env.synthesize st2.query st2.web_extracted_contents true
  match res with
  | Except.ok synthesis =>
      ({ st2 with
          synthesis_result := some synthesis
          metadata := { st2.metadata with synthesis_completed := some true } }, r.2)
  | Except.error e =>
      ({ st2 with
          errors := st2.errors ++ ["Error in synthesize_results_node: " ++ e] }, r.2)

/-- C10: when the metadata map has no `used_existing_docs` key the
Synthesize stage takes the existing-documents branch (the missing flag
defaults to true): a successful synthesis of the papers list is stored, the
node output depends only on the synthesis oracle value at
`(query, papers, is_web_extracted=false)` — so the web-extracted contents
are not consulted — and a failing existing-docs check indeed leaves the
flag absent and the papers list empty. -/
theorem synthesize_missing_flag_default (env : WEnv) (st : ResearchState)
    (h : st.metadata.used_existing_docs = none) :
    (∀ syn, env.synthesize st.query st.papers false = Except.ok syn →
      (synthesize_results_node env st).1.synthesis_result = some syn) ∧
    (∀ f2 : String → List PaperDict → Bool → Except String SynthesisResult,
      f2 st.query st.papers false = env.synthesize st.query st.papers false →
      synthesize_results_node { env with synthesize := f2 } st =
        synthesize_results_node env st) ∧
    (∀ (maxPapers : Nat) (e : String),
      (check_existing_docs_node maxPapers (Except.error e) st).1.metadata.used_existing_docs =
        none ∧
      (check_existing_docs_node maxPapers (Except.error e) st).1.papers = st.papers) := by
  refine ⟨?_, ?_, ?_⟩
  · intro syn hsyn
    simp [synthesize_results_node, update_progress, h, hsyn]
  · intro f2 hf2
    simp [synthesize_results_node, update_progress, h, hf2]
  · intro maxPapers e
    constructor
    · simp [check_existing_docs_node, update_progress, h]
    · simp [check_existing_docs_node, update_progress]

/-- Witness for `synthesize_missing_flag_default`: the initial state has no
`used_existing_docs` key, and with the trivial environment the stored
synthesis is the oracle's docs-branch value. -/
theorem synthesize_missing_flag_default_witness :
    (synthesize_results_node trivialEnv (initial_state "q" false)).1.synthesis_result =
      some {} :=
  (synthesize_missing_flag_default trivialEnv (initial_state "q" false) rfl).1 {} rfl

/-- Serialization of a discovered `Paper` into the state dict
(`asdict(paper)` with the publication date rendered `isoformat`-style as a
string). -/
def serializePaper (p : Paper) : PaperDict :=
  { title := p.title
    authors := p.authors
    abstract := p.abstract
    url := p.url
    publication_date := p.publication_date.map toString
    venue := p.venue
    citations := p.citations
    doi := p.doi
    source := some p.source }

/-- Model of `discover_papers_node`: record the step, report progress, run the
widening search and store the serialized papers into
`state["web_extracted_contents"]`. -/
def discover_papers_node (env : WEnv) (st0 : ResearchState) :
    ResearchState × List ProgressCall :=
  let st1 := { st0 with current_step := "discovering_papers" }
  let r := update_progress st1 "discovering_papers"
  let st2 := r.1
  let papers := (search_papers env.search env.cfg_max_papers).1
  ({ st2 with web_extracted_contents := papers.map serializePaper }, r.2)

/-- Model of `should_discover_papers`: the conditional edge after the
existing-documents check. -/
def should_discover_papers (st : ResearchState) : String :=
  if st.skip_discovery then "skip_to_synthesis" else "discover"

/-- One pass through the discovery chain of the graph:
Discover, Extract, Index, Synthesize, QualityCheck. -/
def discoverPass (env : WEnv) (st : ResearchState) : ResearchState × List ProgressCall :=
  let a := discover_papers_node env st
  let b := extract_content_node env a.1
  let c := update_knowledge_graph_node env b.1
  let d := synthesize_results_node env c.1
  let e := quality_check_node d.1
  (e.1, a.2 ++ b.2 ++ c.2 ++ d.2 ++ e.2)

/-- The skip edge of the graph: Synthesize then QualityCheck directly. -/
def skipPass (env : WEnv) (st : ResearchState) : ResearchState × List ProgressCall :=
  let d := synthesize_results_node env st
  let e := quality_check_node d.1
  (e.1, d.2 ++ e.2)

/-- The retry loop after a quality check: follow `should_continue` back to
the discovery chain while it yields `"continue"`.  The fuel bounds the
re-entries; two suffice because each `"continue"` increments the retry
counter and requires it below 2. -/
def qualityLoop (env : WEnv) :
    Nat → ResearchState → List ProgressCall → ResearchState × List ProgressCall
  | 0, st, calls => ((should_continue st).2, calls)
  | fuel + 1, st, calls =>
    let r := should_continue st
    if r.1 = "continue" then
      let p := discoverPass env r.2
      qualityLoop env fuel p.1 (calls ++ p.2)
    else (r.2, calls)

/-- The compiled graph of `build_workflow` run on one state:
`check_existing_docs` entry, the conditional skip edge, then the pipeline
with the quality-gate loop. -/
def workflow_exec (env : WEnv) (st0 : ResearchState) :
    ResearchState × List ProgressCall :=
  let a := check_existing_docs_node env.cfg_max_papers env.store st0
  let b :=
    if should_discover_papers a.1 = "skip_to_synthesis" then skipPass env a.1
    else discoverPass env a.1
  qualityLoop env 2 b.1 (a.2 ++ b.2)

/-- A full successful `run_research` execution with a (non-raising)
callback supplied: the workflow runs to completion and the wrapper then
invokes the callback once more with `(100, "completed")`. -/
def run_full (env : WEnv) (query : String) (hasCb : Bool) :
    RunResult × List ProgressCall :=
  let w := workflow_exec env (initial_state query hasCb)
  (formatResults query w.1, w.2 ++ (if hasCb then [(100, "completed")] else []))

/-- A synthesis result satisfying all four quality thresholds, so the first
pass scores 100 and the gate ends immediately. -/
def goodSynthesis : SynthesisResult :=
  { summary := "This executive summary is certainly longer than fifty characters."
    key_findings := ["f1", "f2", "f3", "f4"]
    research_gaps := []
    methodology_trends := ["m1", "m2", "m3", "m4"]
    future_directions := ["d1", "d2", "d3", "d4", "d5", "d6"] }

/-- The trivial environment with a high-quality synthesis oracle. -/
def richEnv : WEnv :=
  { trivialEnv with synthesize := fun _ _ _ => Except.ok goodSynthesis }

/-- C8 counterexample: on a completed run the progress sink receives
`progress = 100` twice — once from the quality-check stage
(weight 100) and once from the terminal `"completed"` call — refuting that
it is invoked with 100 exactly once. -/
theorem progress_100_twice_counterexample :
    (((run_full richEnv "q" true).2).filter (fun c => c.1 == 100)).length = 2 := by
  decide

/-- C8 (amended): on every run with a callback the final sink invocation
reports progress 100 — `(100, "completed")` on the success path — and on
the failure path the run wrapper invokes the sink exactly once, with
`(100, "failed: <reason>")`; however a completed pass also reports 100 from
the quality-check stage, so 100 can be reported more than once in a run. -/
theorem progress_terminus (env : WEnv) (query : String) :
    ((run_full env query true).2).getLast? = some (100, "completed") ∧
    (∀ (e : String) (f : Nat → String → Except String Unit),
      (∀ n s, f n s = Except.ok ()) →
      run_research query (Except.error e) (some f) =
        Except.ok (failedResult query e, [(100, "failed: " ++ e)])) := by
  constructor
  · show ((workflow_exec env (initial_state query true)).2 ++
        [(100, "completed")]).getLast? = some (100, "completed")
    exact List.getLast?_concat _
  · intro e f hf
    simp [run_research, runFailPath, hf 100 ("failed: " ++ e)]

/-- Witness for `progress_terminus`: a concrete failing run with a
well-behaved callback reports `(100, "failed: <reason>")` exactly once. -/
theorem progress_terminus_witness :
    run_research "q" (Except.error "kaput") (some (fun _ _ => Except.ok ())) =
      Except.ok (failedResult "q" "kaput", [(100, "failed: " ++ "kaput")]) :=
  (progress_terminus richEnv "q").2 "kaput" (fun _ _ => Except.ok ()) (fun _ _ => rfl)

end AcademicResearch
